import Mathlib

/-!
Shallow embedding of the session / quota / license state machine of the
RafilisAN desktop shell, translated from src/App.tsx.  JavaScript numbers
are modelled as rationals, absent (undefined) values as Option, and the
React state read and written by each handler is passed explicitly; within
one handler invocation, reads see the render-closure values and the last
state write wins, which the definitions mirror.
-/

/-- Per-file status, matching the AudioFile status union in App.tsx. -/
inductive FileStatus
  | pending
  | analyzing
  | analyzed
  | processing
  | finalizing
  | normalized
  | completed
  | stopped
  | error
  deriving DecidableEq, Repr

/-- One row of the session store (interface AudioFile in App.tsx); the three
optional fields are undefined when a row is created from a selected path. -/
structure AudioFile where
  name : String
  path : String
  status : FileStatus
  currentLUFS : Option ℚ := none
  newLUFS : Option ℚ := none
  progress : Option ℚ := none
  deriving DecidableEq, Repr

/-- Last fetched license state (interface LicenseInfo in App.tsx). -/
structure LicenseInfo where
  status : String
  license_key : String := ""
  trial_usage : ℤ := 0
  max_trial_usage : ℤ := 10
  remaining_trial_files : ℤ := 10
  can_process_more : Bool := true
  deriving DecidableEq, Repr

/-- Backend progress snapshot as consumed by pollForUpdates (GET /progress).
fileStatuses is the index-keyed status-token map, currentFiles holds the
per-index loudness readouts (none stands for an absent element or an absent
currentLUFS field), processedFiles the name-keyed final results. -/
structure BackendSnapshot where
  isProcessing : Bool
  fileProgress : List ℚ := []
  fileStatuses : List (ℕ × String) := []
  currentFiles : List (Option ℚ) := []
  processedFiles : List (String × Option ℚ) := []
  completedFiles : ℕ := 0
  totalFiles : ℕ := 0
  estimatedTimeRemaining : Option ℚ := none
  deriving DecidableEq, Repr

/-- JavaScript a || b on optional numbers: a wins unless it is undefined or
0 (0 is falsy). -/
def jsOrNum : Option ℚ → Option ℚ → Option ℚ
  | some x, b => if x = 0 then b else some x
  | none, b => b

/-- JavaScript String.prototype.startsWith. -/
def strStartsWith (s p : String) : Bool :=
  p.data.isPrefixOf s.data

/-- JavaScript !s.trim(): true when the string contains whitespace only. -/
def isBlank (s : String) : Bool :=
  s.data.all fun c => c == ' ' || c == '\t' || c == '\n' || c == '\r'

/-- JavaScript s.split('/') on the character list of the string. -/
def splitSlash : List Char → List (List Char)
  | [] => [[]]
  | c :: cs =>
    if c = '/' then [] :: splitSlash cs
    else
      match splitSlash cs with
      | r :: rs => (c :: r) :: rs
      | [] => [[c]]

/-- JavaScript filePath.split('/').pop() || filePath, as used to build the
display name of a new AudioFile entry. -/
def jsBasename (p : String) : String :=
  match (splitSlash p.data).getLast? with
  | some l => if l = [] then p else String.mk l
  | none => p

/-- AudioFile entry created for an admitted path: pending status, no
loudness and no progress fields. -/
def mkPendingFile (p : String) : AudioFile :=
  { name := jsBasename p, path := p, status := .pending }

/-- fileStatuses index lookup with the JavaScript || fallback to the
pending token (an empty-string token is falsy and also falls back). -/
def lookupToken (m : List (ℕ × String)) (i : ℕ) : String :=
  match m.lookup i with
  | some s => if s = "" then "pending" else s
  | none => "pending"

/-- The stop rule applied per file inside stopProcessing: completed and
normalized entries are kept verbatim, every other entry is forced to
stopped with progress 0, currentLUFS preserved and newLUFS cleared. -/
def stopRuleFile (f : AudioFile) : AudioFile :=
  if f.status = .completed ∨ f.status = .normalized then f
  else
    { f with
      status := .stopped
      progress := some 0
      currentLUFS := f.currentLUFS
      newLUFS := none }

/-- The stop rule applied to the whole session store. -/
def stopRule (files : List AudioFile) : List AudioFile :=
  files.map stopRuleFile

/-- Renderer state touched by stopProcessing. -/
structure SessionState where
  shouldStopPolling : Bool
  isProcessing : Bool
  audioFiles : List AudioFile
  deriving DecidableEq, Repr

/-- Possible outcomes of the awaited POST /stop call inside stopProcessing:
a success response, an explicit failure response, or a thrown transport
error. -/
inductive StopOutcome
  | successResponse
  | failureResponse
  | transportError
  deriving DecidableEq, Repr

/-- stopProcessing: the stop-polling flag and the processing flag are set
first; the forced file-status update sits after the awaited axios call
inside the try block, so it runs for any response (success or failure),
while the catch block entered on a transport error only sets the two flags
again and never touches audioFiles. -/
def stopProcessing (st : SessionState) (outcome : StopOutcome) : SessionState :=
  let st1 : SessionState :=
    { st with shouldStopPolling := true, isProcessing := false }
  match outcome with
  | .successResponse => { st1 with audioFiles := stopRule st1.audioFiles }
  | .failureResponse => { st1 with audioFiles := stopRule st1.audioFiles }
  | .transportError => st1

/-- startProcessing reset: all files are unconditionally put back to pending
with progress 0 and both loudness fields cleared. -/
def startReset (files : List AudioFile) : List AudioFile :=
  files.map fun f =>
    { f with
      status := .pending
      progress := some 0
      currentLUFS := none
      newLUFS := none }

/-- Per-file status mapping of pollForUpdates (the switch over the backend
status token, including the default smart-detection branch).  Inside the
active-run branch the surrounding isProcessing value is true, but it is
kept as a parameter because the source tests it again in the default
branch. -/
def mapFileStatus (fileStatus : String) (fileProgress : ℚ)
    (realCurrentLUFS : Option ℚ) (isProcessing : Bool) : FileStatus :=
  if fileStatus = "Analyzing" then .analyzing
  else if fileStatus = "Normalizing" then
    if fileProgress ≥ 95/100 then .finalizing else .processing
  else if fileStatus = "completed" then .completed
  else if fileStatus = "error" then .error
  else
    match realCurrentLUFS with
    | some l =>
      if l ≠ 0 then
        if fileProgress ≥ 1 ∧ isProcessing = false then .normalized
        else if fileStatus = "Normalizing" ∨ fileProgress > 1/2 then
          if fileProgress ≥ 95/100 then .finalizing else .processing
        else .analyzed
      else if fileProgress > 0 then .analyzing else .pending
    | none => if fileProgress > 0 then .analyzing else .pending

/-- One file entry updated by the active-run branch of pollForUpdates:
progress is copied from the snapshot (0 when absent), the status comes from
mapFileStatus, currentLUFS from the snapshot readout with fallback to the
stored value, and newLUFS is set to the target exactly when the mapped
status is finalizing, normalized or completed, otherwise kept. -/
def pollUpdateFileActive (targetLUFS : ℚ) (snap : BackendSnapshot)
    (index : ℕ) (file : AudioFile) : AudioFile :=
  let fileProgress := snap.fileProgress.getD index 0
  let fileStatus := lookupToken snap.fileStatuses index
  let currentFileData := snap.currentFiles.getD index none
  let realCurrentLUFS := jsOrNum currentFileData file.currentLUFS
  let mappedStatus :=
    mapFileStatus fileStatus fileProgress realCurrentLUFS snap.isProcessing
  { file with
    status := mappedStatus
    progress := some fileProgress
    currentLUFS := realCurrentLUFS
    newLUFS :=
      if mappedStatus = .finalizing ∨ mappedStatus = .normalized ∨
          mappedStatus = .completed
      then some targetLUFS else file.newLUFS }

/-- Index-aware map of pollUpdateFileActive over the session store. -/
def pollUpdateActiveList (targetLUFS : ℚ) (snap : BackendSnapshot) :
    ℕ → List AudioFile → List AudioFile
  | _, [] => []
  | i, f :: fs =>
    pollUpdateFileActive targetLUFS snap i f ::
      pollUpdateActiveList targetLUFS snap (i + 1) fs

/-- One file entry updated by the run-ended branch of pollForUpdates when
the snapshot carries a non-empty processedFiles list: the result is looked
up by file name, every entry becomes completed with progress 1 and newLUFS
set to the target. -/
def pollUpdateFileEnded (targetLUFS : ℚ) (snap : BackendSnapshot)
    (file : AudioFile) : AudioFile :=
  let processedFile := snap.processedFiles.find? fun pf => pf.1 = file.name
  { file with
    status := .completed
    progress := some 1
    currentLUFS :=
      some ((jsOrNum (processedFile.bind Prod.snd) file.currentLUFS).getD 0)
    newLUFS := some targetLUFS }

/-- One poll cycle of pollForUpdates applied to the session store: the
run-ended branch (isProcessing false) marks every file completed, using
processedFiles when non-empty and the stored loudness otherwise; the
active branch applies the per-file translation index-aligned.  The source
contains no check of the shouldStopPolling flag anywhere in this loop. -/
def pollCycle (targetLUFS : ℚ) (snap : BackendSnapshot)
    (files : List AudioFile) : List AudioFile :=
  if snap.isProcessing = false then
    if 0 < snap.processedFiles.length then
      files.map (pollUpdateFileEnded targetLUFS snap)
    else
      files.map fun file =>
        { file with
          status := .completed
          progress := some 1
          currentLUFS := some (file.currentLUFS.getD 0)
          newLUFS := some targetLUFS }
  else
    pollUpdateActiveList targetLUFS snap 0 files

/-- isValidLicenseKeyFormat: fixed literal prefix and at least 20
characters in total. -/
def isValidLicenseKeyFormat (key : String) : Bool :=
  strStartsWith key "RAFILIS-" && decide (20 ≤ key.length)

/-- Activation attempt state: attempt counter and absolute lockout
deadline in milliseconds (0 = unset), as in App.tsx. -/
structure ActivationState where
  attempts : ℕ
  lockoutUntil : ℕ
  deriving DecidableEq, Repr

/-- canAttemptActivation: false strictly before the lockout deadline; at or
after the deadline it resets the counter and the deadline when three or
more attempts had accumulated, and returns true. -/
def canAttemptActivation (now : ℕ) (st : ActivationState) :
    Bool × ActivationState :=
  if now < st.lockoutUntil then (false, st)
  else if now ≥ st.lockoutUntil ∧ st.attempts ≥ 3 then (true, ⟨0, 0⟩)
  else (true, st)

/-- Outcome of the awaited POST /license/activate call. -/
inductive ActivationOutcome
  | success
  | serverRejected
  | transportError
  deriving DecidableEq, Repr

/-- Result of one activateLicense invocation: the three local fast-fail
rejections happen before any network call. -/
inductive ActivationResult
  | emptyKeyError
  | formatError
  | lockoutError
  | networkAttempted (outcome : ActivationOutcome)
  deriving DecidableEq, Repr

/-- activateLicense: local validation (empty or whitespace key, then key
format, then lockout) before the network call; on success the counter and
deadline are cleared; on either failure kind the counter read is the
render-closure value st.attempts, a third failure arms the 60 second
lockout, and otherwise the deadline is whatever canAttemptActivation left
behind. -/
def activateLicense (key : String) (now : ℕ) (outcome : ActivationOutcome)
    (st : ActivationState) : ActivationResult × ActivationState :=
  if isBlank key then (.emptyKeyError, st)
  else if isValidLicenseKeyFormat key = false then (.formatError, st)
  else
    let res := canAttemptActivation now st
    if res.1 = false then (.lockoutError, res.2)
    else
      match outcome with
      | .success => (.networkAttempted .success, ⟨0, 0⟩)
      | .serverRejected =>
        (.networkAttempted .serverRejected,
          if st.attempts + 1 ≥ 3 then ⟨st.attempts + 1, now + 60000⟩
          else ⟨st.attempts + 1, res.2.lockoutUntil⟩)
      | .transportError =>
        (.networkAttempted .transportError,
          if st.attempts + 1 ≥ 3 then ⟨st.attempts + 1, now + 60000⟩
          else ⟨st.attempts + 1, res.2.lockoutUntil⟩)

/-- Trial gate used by both IPC handlers: the cached license snapshot must
be non-null, its status string truthy and starting with the trial
marker. -/
def trialQuotaApplies (licenseInfo : Option LicenseInfo) : Bool :=
  match licenseInfo with
  | some l => (l.status != "") && strStartsWith l.status "Trial"
  | none => false

/-- files-selected IPC handler: under the trial gate the offered paths are
truncated to the available slots (stable prefix); with zero slots and an
oversized offer nothing is appended and the upgrade modal is raised;
otherwise all remaining paths are appended as pending entries.  The
returned flag is showUpgradeModal. -/
def onFilesSelected (licenseInfo : Option LicenseInfo)
    (remainingTrialFiles : ℤ) (audioFiles : List AudioFile)
    (filePaths : List String) : List AudioFile × Bool :=
  if trialQuotaApplies licenseInfo then
    let currentCount : ℤ := audioFiles.length
    let availableSlots : ℤ := max 0 (remainingTrialFiles - currentCount)
    if (filePaths.length : ℤ) > availableSlots then
      if availableSlots > 0 then
        (audioFiles ++ (filePaths.take availableSlots.toNat).map mkPendingFile,
          false)
      else (audioFiles, true)
    else (audioFiles ++ filePaths.map mkPendingFile, false)
  else (audioFiles ++ filePaths.map mkPendingFile, false)

/-- file-dropped IPC handler: under the trial gate a single dropped path is
rejected (upgrade modal raised) when no slot is left, otherwise appended;
without the trial gate it is always appended. -/
def onFileDropped (licenseInfo : Option LicenseInfo)
    (remainingTrialFiles : ℤ) (audioFiles : List AudioFile)
    (filePath : String) : List AudioFile × Bool :=
  if trialQuotaApplies licenseInfo then
    let availableSlots : ℤ :=
      max 0 (remainingTrialFiles - (audioFiles.length : ℤ))
    if availableSlots ≤ 0 then (audioFiles, true)
    else (audioFiles ++ [mkPendingFile filePath], false)
  else (audioFiles ++ [mkPendingFile filePath], false)

/-- Sample pending entry used by concrete scenarios. -/
def pendingFileA : AudioFile :=
  { name := "a.mp3", path := "/music/a.mp3", status := .pending }

/-- Sample trial license snapshot. -/
def trialLicense : LicenseInfo :=
  { status := "Trial", remaining_trial_files := 10 }

/-- Sample pro license snapshot. -/
def proLicense : LicenseInfo :=
  { status := "Pro", remaining_trial_files := 0 }

theorem stopRuleFile_idem (f : AudioFile) :
    stopRuleFile (stopRuleFile f) = stopRuleFile f := by
  by_cases h : f.status = .completed ∨ f.status = .normalized
  · simp [stopRuleFile, h]
  · simp [stopRuleFile, h]

/-- C7: the stop-rule state update is idempotent on the session store:
applying it twice yields exactly the same per-file entries (status,
progress, currentLUFS, newLUFS) as applying it once, so a second stop
mutates no already stopped, completed or normalized entry. -/
theorem stop_rule_idempotent (files : List AudioFile) :
    stopRule (stopRule files) = stopRule files := by
  induction files with
  | nil => rfl
  | cons f fs ih =>
    simp only [stopRule, List.map_cons] at *
    rw [stopRuleFile_idem f, ih]

/-- C8: a backend Normalizing token maps to finalizing exactly when the
reported progress is at least 0.95 and to processing otherwise, and the
concrete active snapshot whose fileStatuses entry for index 0 is
Normalizing with fileProgress 0.97 maps file index 0 to finalizing. -/
theorem normalizing_threshold_mapping :
    (∀ (p : ℚ) (lufs : Option ℚ) (proc : Bool),
      mapFileStatus "Normalizing" p lufs proc =
        if p ≥ 95/100 then .finalizing else .processing) ∧
    (pollCycle (-12)
        { isProcessing := true
          fileProgress := [97/100]
          fileStatuses := [(0, "Normalizing")] }
        [pendingFileA]).map AudioFile.status = [.finalizing] := by
  constructor
  · intro p lufs proc
    simp [mapFileStatus]
  · simp [pollCycle, pollUpdateActiveList, pollUpdateFileActive,
      mapFileStatus, lookupToken, jsOrNum, pendingFileA]
    norm_num

/-- C9: license-key format validation accepts a key exactly when it begins
with the literal RAFILIS- prefix and is at least 20 characters long; the
three scenario keys behave as specified, and activation with an
empty/whitespace key or a format-invalid key is rejected locally,
returning before any network call with the attempt state untouched. -/
theorem license_key_format_validation :
    isValidLicenseKeyFormat "RAFILIS-AAAAAAAAAAAA" = true ∧
    isValidLicenseKeyFormat "RAFILIS-123" = false ∧
    isValidLicenseKeyFormat "BADPREFIX-AAAAAAAAAAAA" = false ∧
    (∀ key : String, isValidLicenseKeyFormat key = true ↔
      (strStartsWith key "RAFILIS-" = true ∧ 20 ≤ key.length)) ∧
    (∀ (key : String) (now : ℕ) (outcome : ActivationOutcome)
        (st : ActivationState), isBlank key = true →
      activateLicense key now outcome st = (.emptyKeyError, st)) ∧
    (∀ (key : String) (now : ℕ) (outcome : ActivationOutcome)
        (st : ActivationState), isBlank key = false →
      isValidLicenseKeyFormat key = false →
      activateLicense key now outcome st = (.formatError, st)) := by
  refine ⟨by decide, by decide, by decide, ?_, ?_, ?_⟩
  · intro key
    simp [isValidLicenseKeyFormat, Bool.and_eq_true]
  · intro key now outcome st h
    simp [activateLicense, h]
  · intro key now outcome st h1 h2
    simp [activateLicense, h1, h2]

/-- Witness for C9 at concrete inputs: a whitespace-only key and the
too-short key are both rejected locally, leaving the attempt state
unchanged. -/
theorem license_key_format_validation_witness :
    activateLicense "   " 0 .success ⟨0, 0⟩ = (.emptyKeyError, ⟨0, 0⟩) ∧
    activateLicense "RAFILIS-123" 5 .serverRejected ⟨1, 0⟩ =
      (.formatError, ⟨1, 0⟩) :=
  ⟨license_key_format_validation.2.2.2.2.1 "   " 0 .success ⟨0, 0⟩ (by decide),
   license_key_format_validation.2.2.2.2.2 "RAFILIS-123" 5 .serverRejected
     ⟨1, 0⟩ (by decide) (by decide)⟩

theorem keyA_not_blank : isBlank "RAFILIS-AAAAAAAAAAAA" = false := by decide

theorem keyA_valid :
    isValidLicenseKeyFormat "RAFILIS-AAAAAAAAAAAA" = true := by decide

/-- C3: three consecutive failed activation attempts (mixing server
rejection and transport error) from a fresh state leave the counter at 3
and arm the lockout deadline at the third failure time plus 60000 ms;
canAttemptActivation returns false at every time strictly before that
deadline, and the first query at or after the deadline returns true,
resetting the counter to 0 and the deadline to unset. -/
theorem activation_lockout_after_three_failures (t1 t2 t3 : ℕ) :
    (activateLicense "RAFILIS-AAAAAAAAAAAA" t3 .serverRejected
      (activateLicense "RAFILIS-AAAAAAAAAAAA" t2 .transportError
        (activateLicense "RAFILIS-AAAAAAAAAAAA" t1 .serverRejected
          ⟨0, 0⟩).2).2).2 = ⟨3, t3 + 60000⟩ ∧
    (∀ t, t < t3 + 60000 →
      (canAttemptActivation t ⟨3, t3 + 60000⟩).1 = false) ∧
    (∀ t, t3 + 60000 ≤ t →
      canAttemptActivation t ⟨3, t3 + 60000⟩ = (true, ⟨0, 0⟩)) := by
  refine ⟨?_, ?_, ?_⟩
  · simp [activateLicense, canAttemptActivation, keyA_not_blank, keyA_valid]
  · intro t ht
    simp [canAttemptActivation, ht]
  · intro t ht
    have h1 : ¬ t < t3 + 60000 := by omega
    simp [canAttemptActivation, h1, ge_iff_le, ht]

/-- Witness for C3 with the three failures at times 100, 500 and 1000 ms:
the lockout is armed until 61000, a query at 60999 is refused and the
query at 61000 succeeds and resets the state. -/
theorem activation_lockout_after_three_failures_witness :
    (canAttemptActivation 60999 ⟨3, 61000⟩).1 = false ∧
    canAttemptActivation 61000 ⟨3, 61000⟩ = (true, ⟨0, 0⟩) :=
  ⟨(activation_lockout_after_three_failures 100 500 1000).2.1 60999 (by decide),
   (activation_lockout_after_three_failures 100 500 1000).2.2 61000 (by decide)⟩

/-- C10: with a null cached license snapshot, or a snapshot whose status
does not start with Trial, both the files-selected and the file-dropped
handlers append every offered path with no quota limiting and never raise
the upgrade modal. -/
theorem no_quota_without_trial_snapshot :
    (∀ (r : ℤ) (files : List AudioFile) (paths : List String),
      onFilesSelected none r files paths =
        (files ++ paths.map mkPendingFile, false)) ∧
    (∀ (l : LicenseInfo) (r : ℤ) (files : List AudioFile)
        (paths : List String), strStartsWith l.status "Trial" = false →
      onFilesSelected (some l) r files paths =
        (files ++ paths.map mkPendingFile, false)) ∧
    (∀ (r : ℤ) (files : List AudioFile) (path : String),
      onFileDropped none r files path =
        (files ++ [mkPendingFile path], false)) ∧
    (∀ (l : LicenseInfo) (r : ℤ) (files : List AudioFile) (path : String),
      strStartsWith l.status "Trial" = false →
      onFileDropped (some l) r files path =
        (files ++ [mkPendingFile path], false)) := by
  refine ⟨?_, ?_, ?_, ?_⟩ <;> intros <;>
    simp_all [onFilesSelected, onFileDropped, trialQuotaApplies]

/-- Witness for C10 with a Pro snapshot: both handlers append the offered
path unconditionally. -/
theorem no_quota_without_trial_snapshot_witness :
    onFilesSelected (some proLicense) 0 [] ["/music/a.mp3"] =
      ([] ++ ["/music/a.mp3"].map mkPendingFile, false) ∧
    onFileDropped (some proLicense) 0 [] "/music/a.mp3" =
      ([] ++ [mkPendingFile "/music/a.mp3"], false) :=
  ⟨no_quota_without_trial_snapshot.2.1 proLicense 0 [] ["/music/a.mp3"]
     (by decide),
   no_quota_without_trial_snapshot.2.2.2 proLicense 0 [] "/music/a.mp3"
     (by decide)⟩

/-- C1: pollForUpdates never reads the shouldStopPolling flag that
stopProcessing sets, and stopProcessing does not clear the pending poll
timeout, so a late-arriving active snapshot processed after the forced
stop write is applied to the store; with the backend token for index 0
still Analyzing, the entry that the stop had forced to stopped is re-mapped
to analyzing, a non-terminal status outside the claimed preserved set. -/
theorem stale_poll_resurrects_stopped_file :
    (stopProcessing ⟨false, true, [pendingFileA]⟩
        .successResponse).audioFiles.map AudioFile.status = [.stopped] ∧
    (pollCycle (-12)
      { isProcessing := true
        fileProgress := [3/10]
        fileStatuses := [(0, "Analyzing")] }
      (stopProcessing ⟨false, true, [pendingFileA]⟩
        .successResponse).audioFiles).map AudioFile.status = [.analyzing] ∧
    (FileStatus.analyzing ≠ .stopped ∧ FileStatus.analyzing ≠ .completed ∧
      FileStatus.analyzing ≠ .normalized) := by
  refine ⟨by decide, ?_, by decide⟩
  simp [stopProcessing, stopRule, stopRuleFile, pendingFileA, pollCycle,
    pollUpdateActiveList, pollUpdateFileActive, mapFileStatus, lookupToken,
    jsOrNum]

/-- C2: when the awaited POST /stop call throws (transport error), control
jumps to the catch block of stopProcessing, which only sets the
stop-polling and processing flags; the forced stop-rule update sits after
the await inside the try block and is skipped, so a pending file stays
pending instead of being forced to stopped as the stop rule would do. -/
theorem stop_transport_error_skips_stop_rule :
    stopProcessing ⟨false, true, [pendingFileA]⟩ .transportError =
      ⟨true, false, [pendingFileA]⟩ ∧
    (stopRule [pendingFileA]).map AudioFile.status = [.stopped] ∧
    pendingFileA.status = .pending ∧
    (FileStatus.pending ≠ .stopped ∧ FileStatus.pending ≠ .completed ∧
      FileStatus.pending ≠ .normalized) := by
  refine ⟨?_, by decide, by decide, by decide⟩
  simp [stopProcessing]

theorem trialQuotaApplies_of_trial (l : LicenseInfo)
    (h : strStartsWith l.status "Trial" = true) :
    trialQuotaApplies (some l) = true := by
  have hne : (l.status != "") = true := by
    rw [bne_iff_ne]
    intro he
    rw [he] at h
    exact absurd h (by decide)
  simp [trialQuotaApplies, hne, h]

theorem onFilesSelected_trial (l : LicenseInfo) (r : ℤ)
    (files : List AudioFile) (paths : List String)
    (h : trialQuotaApplies (some l) = true) :
    onFilesSelected (some l) r files paths =
      if (paths.length : ℤ) > max 0 (r - files.length) then
        if max 0 (r - files.length) > 0 then
          (files ++ (paths.take (max 0 (r - files.length)).toNat).map
            mkPendingFile, false)
        else (files, true)
      else (files ++ paths.map mkPendingFile, false) := by
  simp [onFilesSelected, h]

/-- C4: under a trial snapshot (status starting with Trial) with
remainingTrialFiles r and current file count c, the files-selected handler
appends at most max 0 (r - c) new entries; when the whole offer fits it is
appended whole; when 0 < slots < offer exactly the first slots paths are
appended in their original order (stable prefix truncation); and when
slots = 0 and the offer is non-empty, nothing is appended and the
upgrade-modal signal is raised. -/
theorem trial_quota_admission (l : LicenseInfo) (r : ℤ)
    (files : List AudioFile) (paths : List String)
    (hTrial : strStartsWith l.status "Trial" = true) :
    ((onFilesSelected (some l) r files paths).1.length ≤
      files.length + (max 0 (r - files.length)).toNat) ∧
    ((paths.length : ℤ) ≤ max 0 (r - files.length) →
      (onFilesSelected (some l) r files paths).1 =
        files ++ paths.map mkPendingFile) ∧
    (0 < max 0 (r - files.length) →
      max 0 (r - files.length) < (paths.length : ℤ) →
      (onFilesSelected (some l) r files paths).1 =
        files ++ (paths.take (max 0 (r - files.length)).toNat).map
          mkPendingFile) ∧
    (max 0 (r - files.length) = 0 → paths ≠ [] →
      onFilesSelected (some l) r files paths = (files, true)) := by
  have hq := trialQuotaApplies_of_trial l hTrial
  rw [onFilesSelected_trial l r files paths hq]
  set s : ℤ := max 0 (r - (files.length : ℤ)) with hs
  have hs1 : 0 ≤ s := le_max_left 0 _
  have hs2 : r - (files.length : ℤ) ≤ s := le_max_right 0 _
  refine ⟨?_, ?_, ?_, ?_⟩
  · split_ifs with h1 h2 <;>
      simp only [List.length_append, List.length_take, List.length_map] <;>
      omega
  · intro hle
    have h1 : ¬ ((paths.length : ℤ) > s) := by omega
    simp [h1]
  · intro hpos hlt
    rw [if_pos (by omega : (paths.length : ℤ) > s),
      if_pos (by omega : s > 0)]
  · intro h0 hne
    have hl : 0 < paths.length := List.length_pos.mpr hne
    rw [if_pos (by omega : (paths.length : ℤ) > s),
      if_neg (by omega : ¬ s > 0)]

/-- Witness for C4: the sample trial snapshot with one remaining slot and
two offered paths admits exactly the first path. -/
theorem trial_quota_admission_witness :
    (onFilesSelected (some trialLicense) 1 [] ["/m/a.mp3", "/m/b.mp3"]).1 =
      [] ++ (["/m/a.mp3", "/m/b.mp3"].take
        (max 0 ((1 : ℤ) - ([] : List AudioFile).length)).toNat).map
        mkPendingFile :=
  (trial_quota_admission trialLicense 1 [] ["/m/a.mp3", "/m/b.mp3"]
    (by decide)).2.2.1 (by decide) (by decide)

/-- C6 counterexample: with the run active throughout, a backend that
reports per-file progress 0.5 and then 0.3 makes the stored progress
decrease across successive poll cycles, and a reported value of 1.5 is
stored verbatim outside the range 0..1: the code neither clamps the value
nor enforces monotonicity. -/
theorem progress_not_monotone_counterexample :
    (pollCycle (-12) { isProcessing := true, fileProgress := [1/2] }
      (startReset [pendingFileA])).map AudioFile.progress = [some (1/2)] ∧
    (pollCycle (-12) { isProcessing := true, fileProgress := [3/10] }
      (pollCycle (-12) { isProcessing := true, fileProgress := [1/2] }
        (startReset [pendingFileA]))).map AudioFile.progress =
      [some (3/10)] ∧
    ¬ ((1 : ℚ)/2 ≤ 3/10) ∧
    (pollCycle (-12) { isProcessing := true, fileProgress := [3/2] }
      (startReset [pendingFileA])).map AudioFile.progress = [some (3/2)] ∧
    ¬ ((3 : ℚ)/2 ≤ 1) := by
  refine ⟨?_, ?_, by norm_num, ?_, by norm_num⟩ <;>
    simp [pollCycle, pollUpdateActiveList, pollUpdateFileActive, startReset,
      pendingFileA]

/-- C6 amended: during an active run the poll update stores exactly the
backend-reported progress for each index (0 when the entry is absent);
consequently the stored progress is non-decreasing across successive
cycles whenever the backend-reported values are, and lies in the range
0..1 whenever the reported value does. -/
theorem progress_copied_from_backend (target : ℚ) (i : ℕ) :
    (∀ (snap : BackendSnapshot) (f : AudioFile),
      (pollUpdateFileActive target snap i f).progress =
        some (snap.fileProgress.getD i 0)) ∧
    (∀ (s1 s2 : BackendSnapshot) (f g : AudioFile),
      s1.fileProgress.getD i 0 ≤ s2.fileProgress.getD i 0 →
      ∀ p1 p2, (pollUpdateFileActive target s1 i f).progress = some p1 →
        (pollUpdateFileActive target s2 i g).progress = some p2 →
        p1 ≤ p2) ∧
    (∀ (snap : BackendSnapshot) (f : AudioFile),
      0 ≤ snap.fileProgress.getD i 0 → snap.fileProgress.getD i 0 ≤ 1 →
      ∃ p, (pollUpdateFileActive target snap i f).progress = some p ∧
        0 ≤ p ∧ p ≤ 1) := by
  refine ⟨?_, ?_, ?_⟩
  · intro snap f
    rfl
  · intro s1 s2 f g hle p1 p2 h1 h2
    have e1 : (pollUpdateFileActive target s1 i f).progress =
        some (s1.fileProgress.getD i 0) := rfl
    have e2 : (pollUpdateFileActive target s2 i g).progress =
        some (s2.fileProgress.getD i 0) := rfl
    rw [e1] at h1
    rw [e2] at h2
    injection h1 with h1
    injection h2 with h2
    rw [← h1, ← h2]
    exact hle
  · intro snap f h0 h1
    exact ⟨snap.fileProgress.getD i 0, rfl, h0, h1⟩

/-- Witness for C6 amended at a concrete empty snapshot: the stored
progress equals the reported default 0 and lies in the range 0..1. -/
theorem progress_copied_from_backend_witness :
    ∃ p, (pollUpdateFileActive (-12) { isProcessing := true } 0
      pendingFileA).progress = some p ∧ 0 ≤ p ∧ p ≤ 1 :=
  (progress_copied_from_backend (-12) 0).2.2 { isProcessing := true }
    pendingFileA (by simp) (by simp)

/-- Backend snapshot that drives file index 0 to finalizing: token
Normalizing at progress 0.97 with a loudness readout. -/
def snapFinalizing : BackendSnapshot :=
  { isProcessing := true
    fileProgress := [97/100]
    fileStatuses := [(0, "Normalizing")]
    currentFiles := [some (-14)] }

/-- Later active snapshot in which the backend token for index 0 has
regressed to Analyzing at the same progress. -/
def snapRegressed : BackendSnapshot :=
  { isProcessing := true
    fileProgress := [97/100]
    fileStatuses := [(0, "Analyzing")]
    currentFiles := [some (-14)] }

/-- C5 counterexample: starting a fresh run and processing the two
snapshots in order leaves file 0 with status analyzing while newLUFS still
holds the populated target from the first cycle, so a populated newLUFS
coexists with a status outside the claimed set. -/
theorem newLUFS_kept_on_status_regression :
    (pollCycle (-12) snapRegressed
      (pollCycle (-12) snapFinalizing (startReset [pendingFileA]))).map
        (fun f => (f.status, f.newLUFS)) = [(.analyzing, some (-12))] ∧
    (FileStatus.analyzing ≠ .finalizing ∧ FileStatus.analyzing ≠ .normalized ∧
      FileStatus.analyzing ≠ .completed) := by
  refine ⟨?_, by decide⟩
  simp [pollCycle, pollUpdateActiveList, pollUpdateFileActive, mapFileStatus,
    lookupToken, jsOrNum, startReset, pendingFileA, snapFinalizing,
    snapRegressed]
  norm_num

theorem pollUpdateActiveList_mem (target : ℚ) (snap : BackendSnapshot) :
    ∀ (i : ℕ) (files : List AudioFile) (f : AudioFile),
      f ∈ pollUpdateActiveList target snap i files →
      ∃ j g, g ∈ files ∧ f = pollUpdateFileActive target snap j g := by
  intro i files
  induction files generalizing i with
  | nil =>
    intro f hf
    simp [pollUpdateActiveList] at hf
  | cons g gs ih =>
    intro f hf
    simp only [pollUpdateActiveList, List.mem_cons] at hf
    rcases hf with rfl | hf
    · exact ⟨i, g, List.mem_cons_self g gs, rfl⟩
    · obtain ⟨j, g', hg', rfl⟩ := ih (i + 1) f hf
      exact ⟨j, g', List.mem_cons_of_mem g hg', rfl⟩

theorem pollUpdateFileActive_newLUFS (target : ℚ) (snap : BackendSnapshot)
    (i : ℕ) (f : AudioFile) :
    (pollUpdateFileActive target snap i f).newLUFS = some target ∨
    (pollUpdateFileActive target snap i f).newLUFS = f.newLUFS := by
  simp only [pollUpdateFileActive]
  split_ifs with h
  · exact Or.inl rfl
  · exact Or.inr rfl

/-- C5 amended: every populated newLUFS equals the single configured
target of the run: the start reset clears the field, both poll branches
and the stop rule only ever write none or the target, and the active poll
update assigns a changed value only when the freshly mapped status is
finalizing, normalized or completed; however the update preserves a
previously populated newLUFS verbatim when a later snapshot maps the file
to any other status, so a populated newLUFS may coexist with such a
status. -/
theorem newLUFS_target_value_invariant (target : ℚ) :
    (∀ (files : List AudioFile) (f : AudioFile), f ∈ startReset files →
      f.newLUFS = none) ∧
    (∀ (snap : BackendSnapshot) (files : List AudioFile) (f : AudioFile),
      (∀ g ∈ files, g.newLUFS = none ∨ g.newLUFS = some target) →
      f ∈ pollCycle target snap files →
      f.newLUFS = none ∨ f.newLUFS = some target) ∧
    (∀ (files : List AudioFile) (f : AudioFile),
      (∀ g ∈ files, g.newLUFS = none ∨ g.newLUFS = some target) →
      f ∈ stopRule files →
      f.newLUFS = none ∨ f.newLUFS = some target) ∧
    (∀ (snap : BackendSnapshot) (i : ℕ) (f : AudioFile),
      (pollUpdateFileActive target snap i f).newLUFS ≠ f.newLUFS →
      (pollUpdateFileActive target snap i f).newLUFS = some target ∧
      ((pollUpdateFileActive target snap i f).status = .finalizing ∨
       (pollUpdateFileActive target snap i f).status = .normalized ∨
       (pollUpdateFileActive target snap i f).status = .completed)) := by
  refine ⟨?_, ?_, ?_, ?_⟩
  · intro files f hf
    simp only [startReset] at hf
    rcases List.mem_map.mp hf with ⟨g, hg, rfl⟩
    rfl
  · intro snap files f hinv hf
    simp only [pollCycle] at hf
    split_ifs at hf with h1 h2
    · rcases List.mem_map.mp hf with ⟨g, hg, rfl⟩
      exact Or.inr rfl
    · rcases List.mem_map.mp hf with ⟨g, hg, rfl⟩
      exact Or.inr rfl
    · obtain ⟨j, g, hg, rfl⟩ := pollUpdateActiveList_mem target snap 0 files f hf
      rcases pollUpdateFileActive_newLUFS target snap j g with h | h
      · exact Or.inr h
      · rw [h]
        exact hinv g hg
  · intro files f hinv hf
    simp only [stopRule] at hf
    rcases List.mem_map.mp hf with ⟨g, hg, rfl⟩
    by_cases h : g.status = .completed ∨ g.status = .normalized
    · have he : stopRuleFile g = g := by simp [stopRuleFile, h]
      rw [he]
      exact hinv g hg
    · have he : (stopRuleFile g).newLUFS = none := by simp [stopRuleFile, h]
      rw [he]
      exact Or.inl rfl
  · intro snap i f hne
    simp only [pollUpdateFileActive] at hne ⊢
    split_ifs at hne ⊢ with h
    · exact ⟨rfl, h⟩
    · exact absurd rfl hne

/-- Witness for C5 amended: applying the stop rule to the sample singleton
store yields an entry whose newLUFS is none or the target. -/
theorem newLUFS_target_value_invariant_witness :
    (stopRuleFile pendingFileA).newLUFS = none ∨
    (stopRuleFile pendingFileA).newLUFS = some (-12) :=
  (newLUFS_target_value_invariant (-12)).2.2.1 [pendingFileA]
    (stopRuleFile pendingFileA) (by simp [pendingFileA])
    (by simp [stopRule])
